import Mathlib

/-!
# Verification of the Text-to-Motion API Gateway core

A shallow embedding of `text_motion_api/main.py`: the NPZ→JSON motion codec,
the session registry (`AppState`), the fixed-window rate limiter, the bounded
per-session motion store, the remote-generation client's response
classification, and the HTTP endpoint flows, together with theorems settling
the specified properties.

Modelling conventions:
* Wall-clock instants (`datetime.now()` values) are rationals counting
  seconds; `timedelta(minutes=m)` is `60*m` seconds, `timedelta(hours=2)` is
  `7200`.  Each Python call site that reads the clock takes the instant as an
  explicit `now` argument.
* `created_at` is stored in the source as an ISO-format timestamp string whose
  lexicographic order agrees with chronological order; it is modelled directly
  as the time value.
* Python dicts preserve insertion order, so a dict is an association list
  `List (String × α)`; assignment to a fresh key appends, assignment to an
  existing key updates in place, `del` removes the entry.
* Numeric array entries are rationals (the codec only moves them around, so no
  floating-point rounding is observable in the modelled fields; the division
  `frame_count / fps` is exact rational division).
* Library calls at the boundary (`np.load` container access, `json.loads`) are
  modelled by their observable result: the NPZ container is a record of
  optional arrays, and a textual websocket message carries the parse outcome
  of `json.loads` (`none` = `JSONDecodeError`).
-/

namespace T2M

/-- A wall-clock instant, in seconds. -/
abbrev Time := ℚ

/-! ## Motion codec (`convert_npz_to_motion_data`, main.py:239-276) -/

/-- The decoded motion record built by `convert_npz_to_motion_data`
(the JSON-serialisable dict of main.py:265-274).  The endpoint later adds
bookkeeping keys (`motion_id`, `text_prompt`, `parameters`); those carry no
claimed invariants and are kept outside this record. -/
structure MotionRecord where
  name : String
  fps : ℚ
  joint_pos : List (List ℚ)
  root_pos : List (List ℚ)
  root_quat : List (List ℚ)
  frame_count : ℕ
  duration : ℚ
  created_at : Time
deriving Repr, DecidableEq

/-- The NPZ container as seen through `np.load`: each required key is either
present (with its array) or absent.  `fps` is stored as a one-element integer
array; its single value is modelled directly. -/
structure Npz where
  fps : Option ℤ
  joint_pos : Option (List (List ℚ))
  root_pos : Option (List (List ℚ))
  root_rot : Option (List (List ℚ))
deriving Repr, DecidableEq

/-- The exceptions `convert_npz_to_motion_data` can raise: a `KeyError` from
`data[...]` on a missing array, or a `ZeroDivisionError` from
`frame_count / fps` when `fps = 0`.  (Both escape to the endpoint's generic
`except Exception` handler.) -/
inductive ConvError where
  | keyError (key : String)
  | zeroDivision
deriving Repr, DecidableEq

/-- `convert_npz_to_motion_data` (main.py:239-276): read `fps`, `joint_pos`,
`root_pos`, `root_rot` in order (a missing key raises `KeyError`), take
`frame_count` from the leading dimension of `joint_pos`, and compute
`duration = frame_count / fps` (raising `ZeroDivisionError` when `fps = 0`).
No dimension agreement or sign check is performed. -/
def convert_npz_to_motion_data (data : Npz) (motion_name : String) (now : Time) :
    Except ConvError MotionRecord := do
  let fps ← match data.fps with
    | some f => Except.ok f
    | none => Except.error (ConvError.keyError "fps")
  let joint_pos ← match data.joint_pos with
    | some a => Except.ok a
    | none => Except.error (ConvError.keyError "joint_pos")
  let root_pos ← match data.root_pos with
    | some a => Except.ok a
    | none => Except.error (ConvError.keyError "root_pos")
  let root_rot ← match data.root_rot with
    | some a => Except.ok a
    | none => Except.error (ConvError.keyError "root_rot")
  let frame_count := joint_pos.length
  if fps = 0 then
    Except.error ConvError.zeroDivision
  else
    Except.ok
      { name := motion_name
        fps := (fps : ℚ)
        joint_pos := joint_pos
        root_pos := root_pos
        root_quat := root_rot
        frame_count := frame_count
        duration := (frame_count : ℚ) / (fps : ℚ)
        created_at := now }

/-- The failure condition the spec ascribes to the codec: a required array is
missing, or the leading dimensions of the three per-frame arrays disagree, or
the frame rate is zero or negative. -/
def specFailureCondition (data : Npz) : Prop :=
  data.fps = none ∨ data.joint_pos = none ∨ data.root_pos = none ∨
    data.root_rot = none ∨
    (∃ jp rp rr, data.joint_pos = some jp ∧ data.root_pos = some rp ∧
      data.root_rot = some rr ∧
      ¬(jp.length = rp.length ∧ jp.length = rr.length)) ∨
    (∃ f, data.fps = some f ∧ f ≤ 0)

/-- A payload whose three per-frame arrays disagree in leading dimension
(joint_pos has 2 frames, root_pos has 3 rows) and whose fps is positive. -/
def mismatchedNpz : Npz :=
  { fps := some 30
    joint_pos := some [[1, 2], [3, 4]]
    root_pos := some [[0, 0, 0], [1, 1, 1], [2, 2, 2]]
    root_rot := some [[1, 0, 0, 0], [1, 0, 0, 0]] }

/-! ## Sessions and the registry (`UserSession`, `AppState`, main.py:107-181) -/

/-- `UserSession` (main.py:107-115).  `motions` is the per-session dict from
motion id to motion record, in insertion order. -/
structure UserSession where
  session_id : String
  created_at : Time
  last_activity : Time
  motions : List (String × MotionRecord)
  request_count : ℕ
  request_window_start : Time
deriving Repr, DecidableEq

/-- The registry map `AppState.sessions`: dict from session id to session,
in insertion order. -/
abbrev Sessions := List (String × UserSession)

/-- Python dict lookup `d[k]` / `k in d` for an insertion-ordered dict. -/
def dictFind : List (String × α) → String → Option α
  | [], _ => none
  | p :: d, k => if p.1 = k then some p.2 else dictFind d k

/-- Python in-place mutation of the object stored under an existing key: every
entry whose key equals `k` is replaced by `v` (keys are unique in a dict, so at
most one entry changes). -/
def dictUpdate : List (String × α) → String → α → List (String × α)
  | [], _, _ => []
  | p :: d, k, v => (if p.1 = k then (k, v) else p) :: dictUpdate d k v

/-- Python dict assignment `d[k] = v`: update in place if the key exists,
otherwise append at the end (dicts preserve insertion order). -/
def dictSet (d : List (String × α)) (k : String) (v : α) : List (String × α) :=
  if (dictFind d k).isSome then dictUpdate d k v else d ++ [(k, v)]

/-- `AppState.get_or_create_session` (main.py:127-145).  `fresh_uuid` is the
value `str(uuid.uuid4())` would produce on this call.  If the supplied id is
truthy and is a key of the map, that session is returned with `last_activity`
set to `now`; otherwise a new session is created under
`new_session_id = session_id or str(uuid.uuid4())` — i.e. under the supplied
id when it is truthy (even though unknown), and under the fresh uuid only when
the id is absent or empty. -/
def get_or_create_session (now : Time) (fresh_uuid : String) (sessions : Sessions)
    (session_id : Option String) : UserSession × Sessions :=
  match session_id with
  | some sid =>
    if sid ≠ "" then
      match dictFind sessions sid with
      | some session =>
        let session' := { session with last_activity := now }
        (session', dictUpdate sessions sid session')
      | none =>
        let s : UserSession :=
          { session_id := sid, created_at := now, last_activity := now
            motions := [], request_count := 0, request_window_start := now }
        (s, dictSet sessions sid s)
    else
      let s : UserSession :=
        { session_id := fresh_uuid, created_at := now, last_activity := now
          motions := [], request_count := 0, request_window_start := now }
      (s, dictSet sessions fresh_uuid s)
  | none =>
    let s : UserSession :=
      { session_id := fresh_uuid, created_at := now, last_activity := now
        motions := [], request_count := 0, request_window_start := now }
    (s, dictSet sessions fresh_uuid s)

/-- The expiry test of `AppState.cleanup_expired_sessions` (main.py:153-160):
idle longer than `DATA_RETENTION_MINUTES` minutes (strictly), or older than 2
hours (strictly).  `retention_minutes` defaults to 30. -/
def isExpired (retention_minutes : ℚ) (now : Time) (s : UserSession) : Prop :=
  60 * retention_minutes < now - s.last_activity ∨ 7200 < now - s.created_at

instance (retention_minutes : ℚ) (now : Time) (s : UserSession) :
    Decidable (isExpired retention_minutes now s) := by
  unfold isExpired; infer_instance

/-- `AppState.cleanup_expired_sessions` (main.py:147-164): collect every
session satisfying the expiry test, then delete those entries from the map. -/
def cleanup_expired_sessions (retention_minutes : ℚ) (now : Time)
    (sessions : Sessions) : Sessions :=
  sessions.filter (fun p => ¬ isExpired retention_minutes now p.2)

/-- `AppState.check_rate_limit` (main.py:166-181): reset the window when more
than one minute has elapsed since its start, then reject if the count has
reached the ceiling (`MAX_REQUESTS_PER_MINUTE`, default 10), else increment
and admit.  Returns the admission decision and the mutated session. -/
def check_rate_limit (ceiling : ℕ) (now : Time) (session : UserSession) :
    Bool × UserSession :=
  let session :=
    if 60 < now - session.request_window_start then
      { session with request_count := 0, request_window_start := now }
    else session
  if ceiling ≤ session.request_count then
    (false, session)
  else
    (true, { session with request_count := session.request_count + 1 })

/-! ## Motion store (`enforce_motion_limit`, main.py:339-346) -/

/-- Python's `min(keys, key=...)` over the motions dict: the first entry (in
insertion order) whose `created_at` is strictly smaller than every later
candidate — i.e. the first entry attaining the minimum. -/
def minByCreated (ms : List (String × MotionRecord)) :
    Option (String × MotionRecord) :=
  match ms with
  | [] => none
  | x :: xs =>
    some (xs.foldl (fun acc y =>
      if y.2.created_at < acc.2.created_at then y else acc) x)

/-- `enforce_motion_limit` (main.py:339-346): when the store already holds at
least `MAX_STORED_MOTIONS_PER_USER` records (default 10), delete the entry
with the smallest `created_at` (first one on ties, matching `min` over the
ISO-timestamp strings). -/
def enforce_motion_limit (max_stored : ℕ) (ms : List (String × MotionRecord)) :
    List (String × MotionRecord) :=
  if max_stored ≤ ms.length then
    match minByCreated ms with
    | some oldest => ms.eraseP (fun p => p.1 = oldest.1)
    | none => ms
  else ms

/-- The store step of `generate_motion` (main.py:437-439): enforce the limit,
then assign the new record under its (fresh) motion id. -/
def store_motion (max_stored : ℕ) (motion_id : String) (record : MotionRecord)
    (ms : List (String × MotionRecord)) : List (String × MotionRecord) :=
  dictSet (enforce_motion_limit max_stored ms) motion_id record

/-- A whole sequence of inserts, oldest first, starting from a given store. -/
def store_all (max_stored : ℕ) (inserts : List (String × MotionRecord))
    (ms : List (String × MotionRecord)) : List (String × MotionRecord) :=
  inserts.foldl (fun acc p => store_motion max_stored p.1 p.2 acc) ms

/-! ## Remote generation client (`generate_motion_from_remote`, main.py:279-336) -/

/-- The observable outcome of `json.loads` on a textual websocket message, as
far as the classification code reads it: a JSON object is a field map (the
code then calls `.get('error', ...)` / `.get('code', ...)` on it, with string
values in the remote protocol), and any successfully parsed non-object value
has no `.get` attribute. -/
inductive Json where
  | obj (fields : List (String × String))
  | nonObj
deriving Repr, DecidableEq

/-- Python `dict.get(k, default)` over a parsed JSON object's fields. -/
def jsonGet (fields : List (String × String)) (k : String) (dflt : String) :
    String :=
  match dictFind fields k with
  | some v => v
  | none => dflt

/-- A single received websocket message: textual (carrying the `json.loads`
outcome, `none` meaning `JSONDecodeError`) or binary NPZ bytes. -/
inductive WsResponse where
  | text (parsed : Option Json)
  | binary (payload : Npz)
deriving Repr, DecidableEq

/-- What happened on the wire during one `generate_motion_from_remote` call:
a message arrived, or the total-deadline timer fired (`asyncio.TimeoutError`),
or the connection was refused (`websockets.exceptions.ConnectionRefused`), or
a transport-level protocol violation occurred
(`websockets.exceptions.WebSocketException`). -/
inductive RemoteOutcome where
  | response (r : WsResponse)
  | timeout
  | connectionRefused
  | wsException (detail : String)
deriving Repr, DecidableEq

/-- The payload of a raised `HTTPException`: `detail` is either the
`{"error": ..., "code": ...}` dict or a plain string. -/
inductive HTTPDetail where
  | dict (error code : String)
  | str (msg : String)
deriving Repr, DecidableEq

/-- A raised `HTTPException`: status code plus detail. -/
structure HTTPError where
  status : ℕ
  detail : HTTPDetail
deriving Repr, DecidableEq

/-- The ways `generate_motion_from_remote` can terminate abnormally: by
raising an `HTTPException`, or by the `AttributeError` that escapes when
`json.loads` returns a non-object value and `.get` is called on it (that
exception is not caught by any of the function's handlers). -/
inductive RemoteFailure where
  | http (e : HTTPError)
  | attrError
deriving Repr, DecidableEq

/-- `generate_motion_from_remote` (main.py:279-336), from the point the wire
outcome is known: a textual message parsing as a JSON object raises
`HTTPException(500, {error, code})` with the object's fields (defaults
`'Unknown error'` / `'SERVER_ERROR'`); a textual message that fails to parse
raises `HTTPException(500, INVALID_RESPONSE)`; a binary message is returned
unchanged; `asyncio.TimeoutError` maps to 504 `TIMEOUT`, `ConnectionRefused`
to 503 `SERVER_UNAVAILABLE`, and any other `WebSocketException` to 502
`WEBSOCKET_ERROR`. -/
def generate_motion_from_remote (outcome : RemoteOutcome) :
    Except RemoteFailure Npz :=
  match outcome with
  | RemoteOutcome.response (WsResponse.binary payload) => Except.ok payload
  | RemoteOutcome.response (WsResponse.text (some (Json.obj fields))) =>
    Except.error (RemoteFailure.http
      { status := 500
        detail := HTTPDetail.dict (jsonGet fields "error" "Unknown error")
          (jsonGet fields "code" "SERVER_ERROR") })
  | RemoteOutcome.response (WsResponse.text (some Json.nonObj)) =>
    Except.error RemoteFailure.attrError
  | RemoteOutcome.response (WsResponse.text none) =>
    Except.error (RemoteFailure.http
      { status := 500
        detail := HTTPDetail.dict "Invalid response from server" "INVALID_RESPONSE" })
  | RemoteOutcome.timeout =>
    Except.error (RemoteFailure.http
      { status := 504
        detail := HTTPDetail.dict "Request timeout - generation took too long" "TIMEOUT" })
  | RemoteOutcome.connectionRefused =>
    Except.error (RemoteFailure.http
      { status := 503
        detail := HTTPDetail.dict "Motion generation server unavailable" "SERVER_UNAVAILABLE" })
  | RemoteOutcome.wsException detail =>
    Except.error (RemoteFailure.http
      { status := 502
        detail := HTTPDetail.dict ("WebSocket error: " ++ detail) "WEBSOCKET_ERROR" })

/-! ## Error envelope (`http_exception_handler`, main.py:552-562) -/

/-- The uniform error body `{success: false, error, code}`. -/
structure ErrorEnvelope where
  success : Bool
  error : String
  code : String
deriving Repr, DecidableEq

/-- `http_exception_handler` (main.py:552-562): dict details supply `error`
and `code`; string details become the error text with code `UNKNOWN`. -/
def http_exception_handler (e : HTTPError) : ℕ × ErrorEnvelope :=
  match e.detail with
  | HTTPDetail.dict err code => (e.status, { success := false, error := err, code := code })
  | HTTPDetail.str msg => (e.status, { success := false, error := msg, code := "UNKNOWN" })

/-! ## HTTP endpoints (main.py:373-521) -/

/-- The observable result of one `POST /api/generate` call: the success body
or an error response already passed through `http_exception_handler`. -/
inductive GenerateResult where
  | success (motion_id : String) (motion : MotionRecord)
  | failure (status : ℕ) (envelope : ErrorEnvelope)
deriving Repr, DecidableEq

/-- `generate_motion` (main.py:373-459): get-or-create the session, run the
rate limiter (persisting its mutation; a rejection raises 429 `RATE_LIMIT`),
perform the remote exchange, decode the NPZ (any non-`HTTPException` failure
maps to 500 `GENERATION_FAILED`), then evict-if-full and store the record.
`fresh_uuid` models `str(uuid.uuid4())`, `motion_id` the generated
`gen_<timestamp>_<hex>` id, `outcome` the wire outcome. -/
def generate_motion (ceiling max_stored : ℕ) (now : Time)
    (fresh_uuid motion_id : String) (text : String) (session_id : Option String)
    (outcome : RemoteOutcome) (sessions : Sessions) : GenerateResult × Sessions :=
  let (session, sessions) := get_or_create_session now fresh_uuid sessions session_id
  let (admitted, session) := check_rate_limit ceiling now session
  let sessions := dictUpdate sessions session.session_id session
  if ¬ admitted then
    (GenerateResult.failure 429
      { success := false
        error := "Rate limit exceeded - max 10 requests per minute"
        code := "RATE_LIMIT" }, sessions)
  else
    match generate_motion_from_remote outcome with
    | Except.error (RemoteFailure.http e) =>
      let (status, env) := http_exception_handler e
      (GenerateResult.failure status env, sessions)
    | Except.error RemoteFailure.attrError =>
      (GenerateResult.failure 500
        { success := false
          error := "Failed to generate motion: AttributeError"
          code := "GENERATION_FAILED" }, sessions)
    | Except.ok npz_bytes =>
      let motion_name := "[AI] " ++ text.take 30
      match convert_npz_to_motion_data npz_bytes motion_name now with
      | Except.error _ =>
        (GenerateResult.failure 500
          { success := false
            error := "Failed to generate motion: conversion error"
            code := "GENERATION_FAILED" }, sessions)
      | Except.ok motion_data =>
        let session :=
          { session with motions := store_motion max_stored motion_id motion_data session.motions }
        (GenerateResult.success motion_id motion_data,
          dictUpdate sessions session.session_id session)

/-- One listed summary row of `GET /api/motions` (main.py:472-482). -/
structure MotionSummary where
  motion_id : String
  name : String
  frame_count : ℕ
  duration : ℚ
  created_at : Time
deriving Repr, DecidableEq

/-- `list_motions` (main.py:462-487): unknown or falsy session id yields an
empty list; otherwise `last_activity` is refreshed and the summaries are
returned sorted by `created_at` descending (Python's stable `sorted` with
`reverse=True`). -/
def list_motions (now : Time) (session_id : Option String) (sessions : Sessions) :
    (List MotionSummary × Option String) × Sessions :=
  match session_id with
  | none => (([], none), sessions)
  | some sid =>
    if sid = "" then (([], none), sessions)
    else
      match dictFind sessions sid with
      | none => (([], none), sessions)
      | some session =>
        let session := { session with last_activity := now }
        let rows := session.motions.map (fun p =>
          ({ motion_id := p.1, name := p.2.name, frame_count := p.2.frame_count
             duration := p.2.duration, created_at := p.2.created_at } : MotionSummary))
        ((rows.mergeSort (fun a b => b.created_at ≤ a.created_at), some sid),
          dictUpdate sessions sid session)

/-- The observable result of `GET /api/motions/{id}` or
`DELETE /api/motions/{id}`. -/
inductive MotionLookupResult where
  | sessionNotFound
  | motionNotFound
  | found (record : MotionRecord)
deriving Repr, DecidableEq

/-- `get_motion` (main.py:490-503): 404 when the session id is falsy or
unknown (before which nothing is touched), otherwise refresh `last_activity`,
then 404 when the motion id is unknown, else return the record. -/
def get_motion (now : Time) (session_id : Option String) (motion_id : String)
    (sessions : Sessions) : MotionLookupResult × Sessions :=
  match session_id with
  | none => (MotionLookupResult.sessionNotFound, sessions)
  | some sid =>
    if sid = "" then (MotionLookupResult.sessionNotFound, sessions)
    else
      match dictFind sessions sid with
      | none => (MotionLookupResult.sessionNotFound, sessions)
      | some session =>
        let session := { session with last_activity := now }
        let sessions := dictUpdate sessions sid session
        match dictFind session.motions motion_id with
        | none => (MotionLookupResult.motionNotFound, sessions)
        | some record => (MotionLookupResult.found record, sessions)

/-- `delete_motion` (main.py:506-521): 404 when the session id is falsy or
unknown, 404 when the motion id is unknown, else delete the entry.  Note the
handler reads no clock: `last_activity` is left as it was. -/
def delete_motion (session_id : Option String) (motion_id : String)
    (sessions : Sessions) : MotionLookupResult × Sessions :=
  match session_id with
  | none => (MotionLookupResult.sessionNotFound, sessions)
  | some sid =>
    if sid = "" then (MotionLookupResult.sessionNotFound, sessions)
    else
      match dictFind sessions sid with
      | none => (MotionLookupResult.sessionNotFound, sessions)
      | some session =>
        match dictFind session.motions motion_id with
        | none => (MotionLookupResult.motionNotFound, sessions)
        | some record =>
          let session :=
            { session with motions := session.motions.eraseP (fun p => p.1 = motion_id) }
          (MotionLookupResult.found record, dictUpdate sessions sid session)

/-! ## Derived runners and concrete sample data -/

/-- A sequence of rate-limit checks on one session, at the given instants in
order; returns whether every request was admitted, and the final session. -/
def runLimiter (ceiling : ℕ) (times : List Time) (session : UserSession) :
    Bool × UserSession :=
  times.foldl (fun acc t =>
    let r := check_rate_limit ceiling t acc.2
    (acc.1 && r.1, r.2)) (true, session)

/-- The session record `get_or_create_session` builds for a new id. -/
def freshSession (id : String) (now : Time) : UserSession :=
  { session_id := id, created_at := now, last_activity := now
    motions := [], request_count := 0, request_window_start := now }

/-- A well-formed two-frame payload (all three arrays agree on 2 frames). -/
def goodNpz : Npz :=
  { fps := some 30
    joint_pos := some [[1], [2]]
    root_pos := some [[0, 0, 0], [1, 1, 1]]
    root_rot := some [[1, 0, 0, 0], [1, 0, 0, 0]] }

/-- A minimal motion record created at instant `t`, for concrete stores. -/
def sampleRecord (t : Time) : MotionRecord :=
  { name := "r", fps := 30, joint_pos := [], root_pos := [], root_quat := []
    frame_count := 0, duration := 0, created_at := t }

/-- A concrete session holding one motion, for concrete registries. -/
def sampleSession : UserSession :=
  { session_id := "s", created_at := 0, last_activity := 5
    motions := [("m", sampleRecord 1)], request_count := 0
    request_window_start := 0 }

/-! ## Dictionary helper lemmas -/

theorem dictFind_dictUpdate_of_found {α : Type} (d : List (String × α)) (k : String)
    (v₀ v : α) (h : dictFind d k = some v₀) :
    dictFind (dictUpdate d k v) k = some v := by
  induction d with
  | nil => simp [dictFind] at h
  | cons p d ih =>
    by_cases hp : p.1 = k
    · simp [dictFind, dictUpdate, hp]
    · simp only [dictFind, dictUpdate, if_neg hp] at h ⊢
      exact ih h

theorem dictUpdate_dictUpdate {α : Type} (d : List (String × α)) (k : String)
    (v w : α) : dictUpdate (dictUpdate d k v) k w = dictUpdate d k w := by
  induction d with
  | nil => rfl
  | cons p d ih =>
    by_cases hp : p.1 = k
    · simp [dictUpdate, hp, ih]
    · simp [dictUpdate, hp, ih]

/-- The record `convert_npz_to_motion_data` produces on `mismatchedNpz`: the
decode succeeds even though `root_pos` has 3 rows while `joint_pos` has 2. -/
def mismatchedRecord : MotionRecord :=
  { name := "m", fps := 30
    joint_pos := [[1, 2], [3, 4]]
    root_pos := [[0, 0, 0], [1, 1, 1], [2, 2, 2]]
    root_quat := [[1, 0, 0, 0], [1, 0, 0, 0]]
    frame_count := 2, duration := 2 / 30, created_at := 0 }

/-- The record `convert_npz_to_motion_data` produces on `goodNpz`. -/
def goodRecord : MotionRecord :=
  { name := "g", fps := 30
    joint_pos := [[1], [2]]
    root_pos := [[0, 0, 0], [1, 1, 1]]
    root_quat := [[1, 0, 0, 0], [1, 0, 0, 0]]
    frame_count := 2, duration := 1 / 15, created_at := 0 }

theorem except_bind_ok {ε α β : Type} (a : α) (f : α → Except ε β) :
    (Except.ok a : Except ε α) >>= f = f a := rfl

theorem except_bind_error {ε α β : Type} (e : ε) (f : α → Except ε β) :
    (Except.error e : Except ε α) >>= f = Except.error e := rfl

/-! ## C1 — codec failure conditions -/

/-- C1 counterexample: the spec's failure condition (here: the leading
dimensions of the three per-frame arrays disagree — 2, 3 and 2 frames — with
every required array present and a positive frame rate) holds of
`mismatchedNpz`, yet the codec succeeds instead of failing: the decode is not
a `ConversionError`. -/
theorem convert_no_dimension_check :
    specFailureCondition mismatchedNpz ∧
      (convert_npz_to_motion_data mismatchedNpz "m" 0).isOk = true := by
  constructor
  · refine Or.inr (Or.inr (Or.inr (Or.inr (Or.inl
      ⟨[[1, 2], [3, 4]], [[0, 0, 0], [1, 1, 1], [2, 2, 2]],
        [[1, 0, 0, 0], [1, 0, 0, 0]], rfl, rfl, rfl, ?_⟩))))
    decide
  · rfl

/-- C1 amended: the codec fails exactly when the container is missing one of
the required arrays (`fps`, `joint_pos`, `root_pos`, `root_rot`) or the frame
rate is zero; disagreeing leading dimensions and negative frame rates are
accepted and produce a record.  (The failures escape as `KeyError` /
`ZeroDivisionError`, not a dedicated conversion error type.) -/
theorem convert_failure_characterization (data : Npz) (name : String) (now : Time) :
    (convert_npz_to_motion_data data name now).isOk = false ↔
      (data.fps = none ∨ data.joint_pos = none ∨ data.root_pos = none ∨
        data.root_rot = none ∨ data.fps = some 0) := by
  obtain ⟨fps, jp, rp, rr⟩ := data
  cases fps with
  | none =>
    simp [convert_npz_to_motion_data, except_bind_error, Except.isOk, Except.toBool]
  | some f =>
    cases jp <;> cases rp <;> cases rr <;>
      by_cases hf : f = 0 <;>
        simp [convert_npz_to_motion_data, except_bind_ok, except_bind_error, hf,
          Except.isOk, Except.toBool]

/-! ## C8 — shape of successfully decoded records -/

/-- C8 counterexample: `mismatchedNpz` decodes successfully, but its
`root_pos` sequence has 3 elements while `frame_count = 2`: a successfully
decoded payload whose per-frame sequences do not all have `frame_count`
elements. -/
theorem decoded_record_mismatch :
    convert_npz_to_motion_data mismatchedNpz "m" 0 = Except.ok mismatchedRecord ∧
      mismatchedRecord.root_pos.length ≠ mismatchedRecord.frame_count := by
  constructor
  · simp only [convert_npz_to_motion_data, mismatchedNpz, mismatchedRecord,
      except_bind_ok, except_bind_error]
    norm_num
  · decide

/-- C8 amended: every successfully decoded record has `frame_count` equal to
the leading dimension of `joint_pos`, `duration = frame_count / fps` (exactly,
in the rational model), and its `joint_pos` sequence has exactly `frame_count`
elements; the `root_pos` and `root_quat` sequences have `frame_count` elements
only when their input arrays agreed with `joint_pos` in leading dimension —
the codec itself does not enforce this. -/
theorem decoded_record_shape (data : Npz) (name : String) (now : Time)
    (r : MotionRecord) (h : convert_npz_to_motion_data data name now = Except.ok r) :
    r.frame_count = r.joint_pos.length ∧
    r.duration = (r.frame_count : ℚ) / r.fps ∧
    (r.root_pos.length = r.joint_pos.length → r.root_pos.length = r.frame_count) ∧
    (r.root_quat.length = r.joint_pos.length → r.root_quat.length = r.frame_count) := by
  obtain ⟨fps, jp, rp, rr⟩ := data
  cases fps with
  | none => simp [convert_npz_to_motion_data, except_bind_error] at h
  | some f =>
    cases jp with
    | none => simp [convert_npz_to_motion_data, except_bind_ok, except_bind_error] at h
    | some jp =>
      cases rp with
      | none => simp [convert_npz_to_motion_data, except_bind_ok, except_bind_error] at h
      | some rp =>
        cases rr with
        | none => simp [convert_npz_to_motion_data, except_bind_ok, except_bind_error] at h
        | some rr =>
          by_cases hf : f = 0
          · simp [convert_npz_to_motion_data, except_bind_ok, hf] at h
          · simp only [convert_npz_to_motion_data, except_bind_ok] at h
            rw [if_neg hf] at h
            obtain rfl := Except.ok.inj h
            exact ⟨rfl, rfl, fun h => h, fun h => h⟩

/-- C8 witness: the amended shape theorem applied to the well-formed payload
`goodNpz`, whose decode is `goodRecord`. -/
theorem decoded_record_shape_witness :
    goodRecord.frame_count = goodRecord.joint_pos.length ∧
    goodRecord.duration = (goodRecord.frame_count : ℚ) / goodRecord.fps ∧
    (goodRecord.root_pos.length = goodRecord.joint_pos.length →
      goodRecord.root_pos.length = goodRecord.frame_count) ∧
    (goodRecord.root_quat.length = goodRecord.joint_pos.length →
      goodRecord.root_quat.length = goodRecord.frame_count) :=
  decoded_record_shape goodNpz "g" 0 goodRecord (by
    simp only [convert_npz_to_motion_data, goodNpz, goodRecord,
      except_bind_ok, except_bind_error]
    norm_num)

/-! ## C2 — get-or-create -/

/-- C2 counterexample: calling get-or-create with a supplied id (`"abc"`)
that is unknown to the registry creates and registers the session under the
supplied id itself, not under the freshly generated identifier
(`"fresh-uuid"`): `new_session_id = session_id or str(uuid.uuid4())` only
falls back to the fresh uuid when the id is absent or empty. -/
theorem get_or_create_reuses_supplied_id :
    (get_or_create_session 0 "fresh-uuid" [] (some "abc")).1.session_id = "abc" ∧
    "abc" ≠ "fresh-uuid" ∧
    (get_or_create_session 0 "fresh-uuid" [] (some "abc")).2 =
      [("abc", freshSession "abc" 0)] :=
  ⟨rfl, by decide, rfl⟩

/-- C2 amended: if the supplied id is non-empty and known, the existing
session is returned with `last_activity` refreshed; if the id is absent (or
the empty string), a new session is registered under the freshly generated
identifier; if the id is non-empty but unknown, a new session is registered
under the *supplied* identifier (not a freshly generated one). -/
theorem get_or_create_session_spec (now : Time) (fresh : String) (st : Sessions) :
    (∀ sid s, sid ≠ "" → dictFind st sid = some s →
      get_or_create_session now fresh st (some sid) =
        ({ s with last_activity := now },
          dictUpdate st sid { s with last_activity := now })) ∧
    (get_or_create_session now fresh st none =
      (freshSession fresh now, dictSet st fresh (freshSession fresh now))) ∧
    (get_or_create_session now fresh st (some "") =
      (freshSession fresh now, dictSet st fresh (freshSession fresh now))) ∧
    (∀ sid, sid ≠ "" → dictFind st sid = none →
      get_or_create_session now fresh st (some sid) =
        (freshSession sid now, dictSet st sid (freshSession sid now))) := by
  refine ⟨?_, rfl, ?_, ?_⟩
  · intro sid s hsid hfind
    simp only [get_or_create_session, if_pos hsid, hfind]
  · simp [get_or_create_session, freshSession]
  · intro sid hsid hfind
    simp only [get_or_create_session, if_pos hsid, hfind, freshSession]

/-- C2 witness: the amended theorem applied to a registry holding
`sampleSession` under `"s"`, looked up with the known id `"s"`. -/
theorem get_or_create_session_spec_witness :
    get_or_create_session 9 "u" [("s", sampleSession)] (some "s") =
      ({ sampleSession with last_activity := 9 },
        dictUpdate [("s", sampleSession)] "s"
          { sampleSession with last_activity := 9 }) :=
  (get_or_create_session_spec 9 "u" [("s", sampleSession)]).1 "s" sampleSession
    (by decide) rfl

/-! ## C3 — fixed-window rate limiter -/

theorem rl_reset (ceiling : ℕ) (now : Time) (s : UserSession)
    (h : 60 < now - s.request_window_start) :
    check_rate_limit ceiling now s =
      check_rate_limit ceiling now
        { s with request_count := 0, request_window_start := now } := by
  have h0 : ¬ (60 : ℚ) < now - now := by simp
  simp only [check_rate_limit, if_pos h, if_neg h0]

theorem rl_reject (ceiling : ℕ) (now : Time) (s : UserSession)
    (h1 : ¬ 60 < now - s.request_window_start) (h2 : ceiling ≤ s.request_count) :
    check_rate_limit ceiling now s = (false, s) := by
  simp only [check_rate_limit, if_neg h1, if_pos h2]

theorem rl_admit (ceiling : ℕ) (now : Time) (s : UserSession)
    (h1 : ¬ 60 < now - s.request_window_start) (h2 : s.request_count < ceiling) :
    check_rate_limit ceiling now s =
      (true, { s with request_count := s.request_count + 1 }) := by
  simp only [check_rate_limit, if_neg h1, if_neg (Nat.not_le.mpr h2)]

theorem runLimiter_admits (ceiling : ℕ) : ∀ (ts : List Time) (s : UserSession),
    (∀ t ∈ ts, ¬ 60 < t - s.request_window_start) →
    s.request_count + ts.length ≤ ceiling →
    runLimiter ceiling ts s =
      (true, { s with request_count := s.request_count + ts.length }) := by
  intro ts
  induction ts with
  | nil => intro s _ _; rfl
  | cons t ts ih =>
    intro s hwin hle
    simp only [List.length_cons] at hle
    have hcount : s.request_count < ceiling := by omega
    have hstep := rl_admit ceiling t s (hwin t (List.mem_cons_self t ts)) hcount
    have hrest := ih { s with request_count := s.request_count + 1 }
      (fun t' ht' => hwin t' (List.mem_cons_of_mem t ht'))
      (by simp only; omega)
    simp only [runLimiter, List.foldl_cons, hstep, Bool.true_and] at hrest ⊢
    rw [hrest]
    have hc : s.request_count + 1 + ts.length = s.request_count + (ts.length + 1) := by
      omega
    simp only [List.length_cons, hc]

/-- C3 confirmed: the rate limiter first resets the window when more than one
minute has elapsed since its start (the call then behaves as on the reset
state), then rejects with state unchanged when the count has reached the
ceiling, and otherwise increments the count and admits; consequently `N`
consecutive requests within one window starting from a zero count are all
admitted and leave `request_count = N` when `N ≤ ceiling`, and a request
within the window is rejected when the count equals the ceiling. -/
theorem rate_limiter_spec (ceiling : ℕ) :
    (∀ (now : Time) (s : UserSession), 60 < now - s.request_window_start →
      check_rate_limit ceiling now s =
        check_rate_limit ceiling now
          { s with request_count := 0, request_window_start := now }) ∧
    (∀ (now : Time) (s : UserSession), ¬ 60 < now - s.request_window_start →
      ceiling ≤ s.request_count →
      check_rate_limit ceiling now s = (false, s)) ∧
    (∀ (now : Time) (s : UserSession), ¬ 60 < now - s.request_window_start →
      s.request_count < ceiling →
      check_rate_limit ceiling now s =
        (true, { s with request_count := s.request_count + 1 })) ∧
    (∀ (ts : List Time) (s : UserSession), s.request_count = 0 →
      (∀ t ∈ ts, ¬ 60 < t - s.request_window_start) → ts.length ≤ ceiling →
      runLimiter ceiling ts s = (true, { s with request_count := ts.length })) ∧
    (∀ (now : Time) (s : UserSession), s.request_count = ceiling →
      ¬ 60 < now - s.request_window_start →
      check_rate_limit ceiling now s = (false, s)) := by
  refine ⟨fun now s h => rl_reset ceiling now s h,
    fun now s h1 h2 => rl_reject ceiling now s h1 h2,
    fun now s h1 h2 => rl_admit ceiling now s h1 h2,
    fun ts s h0 hwin hle => ?_,
    fun now s hc h1 => rl_reject ceiling now s h1 (le_of_eq hc.symm)⟩
  have := runLimiter_admits ceiling ts s hwin (by rw [h0]; simpa using hle)
  rw [this]
  simp [h0]

/-- C3 witness: with ceiling 2, two requests at instants 10 and 20 on a fresh
session (window start 0) are both admitted and leave the count at 2; a third
request at instant 30 on the resulting session is rejected unchanged. -/
theorem rate_limiter_spec_witness :
    runLimiter 2 [10, 20] (freshSession "w" 0) =
      (true, { freshSession "w" 0 with request_count := 2 }) ∧
    check_rate_limit 2 30 { freshSession "w" 0 with request_count := 2 } =
      (false, { freshSession "w" 0 with request_count := 2 }) :=
  ⟨(rate_limiter_spec 2).2.2.2.1 [10, 20] (freshSession "w" 0) rfl
      (by intro t ht; simp [freshSession] at ht ⊢; rcases ht with h | h <;>
        rw [h] <;> norm_num)
      (by norm_num),
    (rate_limiter_spec 2).2.2.2.2 30 { freshSession "w" 0 with request_count := 2 }
      rfl (by simp [freshSession]; norm_num)⟩

/-! ## C4 — bounded motion store with oldest-first eviction -/

theorem minFold_spec (xs : List (String × MotionRecord)) :
    ∀ (x : String × MotionRecord),
      (xs.foldl (fun acc y => if y.2.created_at < acc.2.created_at then y else acc) x)
        ∈ x :: xs ∧
      (xs.foldl (fun acc y => if y.2.created_at < acc.2.created_at then y else acc)
        x).2.created_at ≤ x.2.created_at ∧
      ∀ p ∈ xs,
        (xs.foldl (fun acc y => if y.2.created_at < acc.2.created_at then y else acc)
          x).2.created_at ≤ p.2.created_at := by
  induction xs with
  | nil =>
    intro x
    exact ⟨List.mem_cons_self x [], le_refl _, by simp⟩
  | cons y ys ih =>
    intro x
    simp only [List.foldl_cons]
    obtain ⟨hmem, hle, hall⟩ := ih (if y.2.created_at < x.2.created_at then y else x)
    have hx : (if y.2.created_at < x.2.created_at then y else x).2.created_at ≤
        x.2.created_at := by
      by_cases hc : y.2.created_at < x.2.created_at
      · rw [if_pos hc]; exact le_of_lt hc
      · rw [if_neg hc]
    have hy : (if y.2.created_at < x.2.created_at then y else x).2.created_at ≤
        y.2.created_at := by
      by_cases hc : y.2.created_at < x.2.created_at
      · rw [if_pos hc]
      · rw [if_neg hc]; exact le_of_not_lt hc
    refine ⟨?_, le_trans hle hx, ?_⟩
    · rcases List.mem_cons.mp hmem with h | h
      · rw [h]
        by_cases hc : y.2.created_at < x.2.created_at
        · rw [if_pos hc]; exact List.mem_cons_of_mem x (List.mem_cons_self y ys)
        · rw [if_neg hc]; exact List.mem_cons_self x (y :: ys)
      · exact List.mem_cons_of_mem x (List.mem_cons_of_mem y h)
    · intro p hp
      rcases List.mem_cons.mp hp with h | h
      · rw [h]; exact le_trans hle hy
      · exact hall p h

theorem minByCreated_spec (ms : List (String × MotionRecord))
    (o : String × MotionRecord) (h : minByCreated ms = some o) :
    o ∈ ms ∧ ∀ p ∈ ms, o.2.created_at ≤ p.2.created_at := by
  cases ms with
  | nil => simp [minByCreated] at h
  | cons x xs =>
    simp only [minByCreated, Option.some.injEq] at h
    obtain ⟨hmem, hle, hall⟩ := minFold_spec xs x
    rw [h] at hmem hle hall
    refine ⟨hmem, ?_⟩
    intro p hp
    rcases List.mem_cons.mp hp with hpx | hpm
    · rw [hpx]; exact hle
    · exact hall p hpm

theorem minByCreated_isSome (ms : List (String × MotionRecord)) (h : ms ≠ []) :
    ∃ o, minByCreated ms = some o := by
  cases ms with
  | nil => exact absurd rfl h
  | cons x xs => exact ⟨_, rfl⟩

theorem length_dictUpdate {α : Type} (d : List (String × α)) (k : String) (v : α) :
    (dictUpdate d k v).length = d.length := by
  induction d with
  | nil => rfl
  | cons p d ih => simp [dictUpdate, ih]

theorem length_dictSet_le {α : Type} (d : List (String × α)) (k : String) (v : α) :
    (dictSet d k v).length ≤ d.length + 1 := by
  unfold dictSet
  by_cases h : (dictFind d k).isSome
  · rw [if_pos h, length_dictUpdate]; omega
  · rw [if_neg h]; simp

theorem store_motion_length (K : ℕ) (mid : String) (r : MotionRecord)
    (ms : List (String × MotionRecord)) (hK : 1 ≤ K) (h : ms.length ≤ K) :
    (store_motion K mid r ms).length ≤ K := by
  unfold store_motion enforce_motion_limit
  by_cases hfull : K ≤ ms.length
  · have hlen : ms.length = K := le_antisymm h hfull
    have hne : ms ≠ [] := by
      intro e; rw [e] at hlen; simp at hlen; omega
    obtain ⟨o, ho⟩ := minByCreated_isSome ms hne
    rw [if_pos hfull, ho]
    have hmem := (minByCreated_spec ms o ho).1
    have herase : (ms.eraseP (fun p => p.1 = o.1)).length = ms.length - 1 :=
      List.length_eraseP_of_mem hmem (by simp)
    calc (dictSet (ms.eraseP (fun p => p.1 = o.1)) mid r).length
        ≤ (ms.eraseP (fun p => p.1 = o.1)).length + 1 := length_dictSet_le _ _ _
      _ = ms.length - 1 + 1 := by rw [herase]
      _ ≤ K := by omega
  · rw [if_neg hfull]
    calc (dictSet ms mid r).length ≤ ms.length + 1 := length_dictSet_le _ _ _
      _ ≤ K := by omega

/-- C4 confirmed: starting from an empty store, any sequence of inserts with
capacity `K ≥ 1` leaves at most `K` records; and an insert into a store at (or
beyond) capacity first erases exactly one record — the first entry attaining
the minimum `created_at`, whose timestamp is no later than that of every
record present before the insert — and then stores the new record. -/
theorem motion_store_bound (K : ℕ) (hK : 1 ≤ K) :
    (∀ inserts : List (String × MotionRecord),
      (store_all K inserts []).length ≤ K) ∧
    (∀ (ms : List (String × MotionRecord)) (o : String × MotionRecord)
        (mid : String) (r : MotionRecord), K ≤ ms.length →
      minByCreated ms = some o →
      store_motion K mid r ms =
        dictSet (ms.eraseP (fun p => p.1 = o.1)) mid r ∧
      o ∈ ms ∧ (∀ p ∈ ms, o.2.created_at ≤ p.2.created_at) ∧
      (ms.eraseP (fun p => p.1 = o.1)).length = ms.length - 1) := by
  constructor
  · intro inserts
    have general : ∀ (l : List (String × MotionRecord))
        (ms : List (String × MotionRecord)), ms.length ≤ K →
        (store_all K l ms).length ≤ K := by
      intro l
      induction l with
      | nil => intro ms h; exact h
      | cons p l ih =>
        intro ms h
        exact ih (store_motion K p.1 p.2 ms) (store_motion_length K p.1 p.2 ms hK h)
    exact general inserts [] (by simp)
  · intro ms o mid r hfull ho
    obtain ⟨hmem, hall⟩ := minByCreated_spec ms o ho
    refine ⟨?_, hmem, hall, List.length_eraseP_of_mem hmem (by simp)⟩
    unfold store_motion enforce_motion_limit
    rw [if_pos hfull, ho]

/-- C4 witness: with capacity 2, inserting three records in sequence leaves at
most 2; and inserting into the full store `[("a", created 3), ("b", created 1)]`
erases exactly `"b"` — the record with the earliest `created_at`. -/
theorem motion_store_bound_witness :
    (store_all 2 [("a", sampleRecord 3), ("b", sampleRecord 1),
      ("c", sampleRecord 5)] []).length ≤ 2 ∧
    (store_motion 2 "c" (sampleRecord 5) [("a", sampleRecord 3), ("b", sampleRecord 1)] =
      dictSet ([("a", sampleRecord 3), ("b", sampleRecord 1)].eraseP
        (fun p => p.1 = ("b", sampleRecord 1).1)) "c" (sampleRecord 5) ∧
      ("b", sampleRecord 1) ∈ [("a", sampleRecord 3), ("b", sampleRecord 1)] ∧
      (∀ p ∈ [("a", sampleRecord 3), ("b", sampleRecord 1)],
        ("b", sampleRecord 1).2.created_at ≤ p.2.created_at) ∧
      ([("a", sampleRecord 3), ("b", sampleRecord 1)].eraseP
        (fun p => p.1 = ("b", sampleRecord 1).1)).length =
        [("a", sampleRecord 3), ("b", sampleRecord 1)].length - 1) :=
  ⟨(motion_store_bound 2 (by decide)).1 _,
    (motion_store_bound 2 (by decide)).2
      [("a", sampleRecord 3), ("b", sampleRecord 1)] ("b", sampleRecord 1)
      "c" (sampleRecord 5) (by decide) rfl⟩

/-! ## Endpoint-flow helper lemmas -/

theorem goc_known (now : Time) (fresh : String) (st : Sessions) (sid : String)
    (s : UserSession) (hsid : sid ≠ "") (hfind : dictFind st sid = some s) :
    get_or_create_session now fresh st (some sid) =
      ({ s with last_activity := now },
        dictUpdate st sid { s with last_activity := now }) := by
  simp only [get_or_create_session, if_pos hsid, hfind]

theorem http_handler_fst (e : HTTPError) : (http_exception_handler e).1 = e.status := by
  obtain ⟨status, detail⟩ := e
  cases detail <;> rfl

theorem rl_preserves (ceiling : ℕ) (now : Time) (s : UserSession) :
    (check_rate_limit ceiling now s).2.last_activity = s.last_activity ∧
    (check_rate_limit ceiling now s).2.session_id = s.session_id ∧
    (check_rate_limit ceiling now s).2.motions = s.motions := by
  simp only [check_rate_limit]
  split <;> split <;> simp

theorem generate_admitted_http_error (ceiling maxS : ℕ) (now : Time)
    (fresh mid text sid : String) (st : Sessions) (s : UserSession)
    (outcome : RemoteOutcome) (e : HTTPError)
    (hsid : sid ≠ "") (hfind : dictFind st sid = some s) (hkey : s.session_id = sid)
    (hwin : ¬ 60 < now - s.request_window_start)
    (hcount : s.request_count < ceiling)
    (hout : generate_motion_from_remote outcome = Except.error (RemoteFailure.http e)) :
    generate_motion ceiling maxS now fresh mid text (some sid) outcome st =
      (GenerateResult.failure (http_exception_handler e).1 (http_exception_handler e).2,
        dictUpdate st sid
          { s with last_activity := now, request_count := s.request_count + 1 }) := by
  have hadmit := rl_admit ceiling now { s with last_activity := now } hwin hcount
  rw [hkey] at hadmit
  simp only [generate_motion, goc_known now fresh st sid s hsid hfind, hkey, hadmit,
    hout, dictUpdate_dictUpdate]
  simp [hkey]

theorem generate_admitted_attr_error (ceiling maxS : ℕ) (now : Time)
    (fresh mid text sid : String) (st : Sessions) (s : UserSession)
    (outcome : RemoteOutcome)
    (hsid : sid ≠ "") (hfind : dictFind st sid = some s) (hkey : s.session_id = sid)
    (hwin : ¬ 60 < now - s.request_window_start)
    (hcount : s.request_count < ceiling)
    (hout : generate_motion_from_remote outcome = Except.error RemoteFailure.attrError) :
    generate_motion ceiling maxS now fresh mid text (some sid) outcome st =
      (GenerateResult.failure 500
        { success := false, error := "Failed to generate motion: AttributeError"
          code := "GENERATION_FAILED" },
        dictUpdate st sid
          { s with last_activity := now, request_count := s.request_count + 1 }) := by
  have hadmit := rl_admit ceiling now { s with last_activity := now } hwin hcount
  rw [hkey] at hadmit
  simp only [generate_motion, goc_known now fresh st sid s hsid hfind, hkey, hadmit,
    hout, dictUpdate_dictUpdate]
  simp [hkey]

theorem generate_admitted_conv_error (ceiling maxS : ℕ) (now : Time)
    (fresh mid text sid : String) (st : Sessions) (s : UserSession)
    (outcome : RemoteOutcome) (npz : Npz) (ce : ConvError)
    (hsid : sid ≠ "") (hfind : dictFind st sid = some s) (hkey : s.session_id = sid)
    (hwin : ¬ 60 < now - s.request_window_start)
    (hcount : s.request_count < ceiling)
    (hout : generate_motion_from_remote outcome = Except.ok npz)
    (hconv : convert_npz_to_motion_data npz ("[AI] " ++ text.take 30) now =
      Except.error ce) :
    generate_motion ceiling maxS now fresh mid text (some sid) outcome st =
      (GenerateResult.failure 500
        { success := false, error := "Failed to generate motion: conversion error"
          code := "GENERATION_FAILED" },
        dictUpdate st sid
          { s with last_activity := now, request_count := s.request_count + 1 }) := by
  have hadmit := rl_admit ceiling now { s with last_activity := now } hwin hcount
  rw [hkey] at hadmit
  simp only [generate_motion, goc_known now fresh st sid s hsid hfind, hkey, hadmit,
    hout, hconv, dictUpdate_dictUpdate]
  simp [hkey]

theorem generate_admitted_success (ceiling maxS : ℕ) (now : Time)
    (fresh mid text sid : String) (st : Sessions) (s : UserSession)
    (outcome : RemoteOutcome) (npz : Npz) (md : MotionRecord)
    (hsid : sid ≠ "") (hfind : dictFind st sid = some s) (hkey : s.session_id = sid)
    (hwin : ¬ 60 < now - s.request_window_start)
    (hcount : s.request_count < ceiling)
    (hout : generate_motion_from_remote outcome = Except.ok npz)
    (hconv : convert_npz_to_motion_data npz ("[AI] " ++ text.take 30) now =
      Except.ok md) :
    generate_motion ceiling maxS now fresh mid text (some sid) outcome st =
      (GenerateResult.success mid md,
        dictUpdate st sid
          { s with
              last_activity := now
              request_count := s.request_count + 1
              motions := store_motion maxS mid md s.motions }) := by
  have hadmit := rl_admit ceiling now { s with last_activity := now } hwin hcount
  rw [hkey] at hadmit
  simp only [generate_motion, goc_known now fresh st sid s hsid hfind, hkey, hadmit,
    hout, hconv, dictUpdate_dictUpdate]
  simp [hkey]

theorem generate_rejected (ceiling maxS : ℕ) (now : Time)
    (fresh mid text sid : String) (st : Sessions) (s : UserSession)
    (outcome : RemoteOutcome)
    (hsid : sid ≠ "") (hfind : dictFind st sid = some s) (hkey : s.session_id = sid)
    (hwin : ¬ 60 < now - s.request_window_start)
    (hcount : ceiling ≤ s.request_count) :
    generate_motion ceiling maxS now fresh mid text (some sid) outcome st =
      (GenerateResult.failure 429
        { success := false
          error := "Rate limit exceeded - max 10 requests per minute"
          code := "RATE_LIMIT" },
        dictUpdate st sid { s with last_activity := now }) := by
  have hrej := rl_reject ceiling now { s with last_activity := now } hwin hcount
  rw [hkey] at hrej
  simp only [generate_motion, goc_known now fresh st sid s hsid hfind, hkey, hrej,
    dictUpdate_dictUpdate]
  simp [hkey]

/-! ## C5 — expiry sweep -/

theorem dictFind_cleanup_none (R : ℚ) (now : Time) (st : Sessions) (sid : String)
    (h : ∀ s, (sid, s) ∈ st → isExpired R now s) :
    dictFind (cleanup_expired_sessions R now st) sid = none := by
  induction st with
  | nil => rfl
  | cons p st ih =>
    by_cases hexp : isExpired R now p.2
    · simp only [cleanup_expired_sessions, List.filter_cons]
      rw [if_neg (by simp [hexp])]
      exact ih (fun s hs => h s (List.mem_cons_of_mem p hs))
    · have hne : p.1 ≠ sid := by
        intro e
        exact hexp (h p.2 (by rw [← e]; exact List.mem_cons_self (p.1, p.2) st))
      simp only [cleanup_expired_sessions, List.filter_cons]
      rw [if_pos (by simp [hexp])]
      simp only [dictFind, if_neg hne]
      exact ih (fun s hs => h s (List.mem_cons_of_mem p hs))

/-- C5 confirmed: the sweep keeps exactly the sessions that are neither idle
beyond the retention window (strictly more than `60 * R` seconds since
`last_activity`, default `R = 30` minutes) nor older than the fixed 2-hour
ceiling — equivalently, it removes exactly the expired ones; and once every
session stored under an id is expired, a motion lookup under that former id
afterwards returns session-not-found and changes nothing. -/
theorem cleanup_spec (R : ℚ) (now : Time) (st : Sessions) :
    (∀ (sid : String) (s : UserSession),
      (sid, s) ∈ cleanup_expired_sessions R now st ↔
        ((sid, s) ∈ st ∧ ¬ isExpired R now s)) ∧
    (∀ sid : String, (∀ s, (sid, s) ∈ st → isExpired R now s) →
      ∀ (now' : Time) (mid : String),
        get_motion now' (some sid) mid (cleanup_expired_sessions R now st) =
          (MotionLookupResult.sessionNotFound,
            cleanup_expired_sessions R now st)) := by
  constructor
  · intro sid s
    simp [cleanup_expired_sessions, List.mem_filter]
  · intro sid hall now' mid
    have hnone := dictFind_cleanup_none R now st sid hall
    by_cases hsid : sid = ""
    · simp [get_motion, hsid]
    · simp [get_motion, hsid, hnone]

/-- C5 witness: with retention 30 minutes, a sweep at instant 1861 removes
`sampleSession` (idle since instant 5, i.e. 1856 s > 1800 s), after which a
motion lookup under its former id `"s"` returns session-not-found. -/
theorem cleanup_spec_witness :
    get_motion 1900 (some "s") "m"
      (cleanup_expired_sessions 30 1861 [("s", sampleSession)]) =
      (MotionLookupResult.sessionNotFound,
        cleanup_expired_sessions 30 1861 [("s", sampleSession)]) :=
  (cleanup_spec 30 1861 [("s", sampleSession)]).2 "s"
    (by
      intro s hs
      simp only [List.mem_cons, List.not_mem_nil, or_false, Prod.mk.injEq] at hs
      rw [hs.2]
      unfold isExpired sampleSession
      left
      norm_num)
    1900 "m"

/-! ## C9 — last-activity touching -/

theorem list_motions_touches (now : Time) (sid : String) (st : Sessions)
    (s : UserSession) (hsid : sid ≠ "") (hfind : dictFind st sid = some s) :
    (list_motions now (some sid) st).2 =
      dictUpdate st sid { s with last_activity := now } := by
  simp only [list_motions, if_neg hsid, hfind]

theorem get_motion_touches (now : Time) (sid mid : String) (st : Sessions)
    (s : UserSession) (hsid : sid ≠ "") (hfind : dictFind st sid = some s) :
    (get_motion now (some sid) mid st).2 =
      dictUpdate st sid { s with last_activity := now } := by
  simp only [get_motion, if_neg hsid, hfind]
  cases h : dictFind ({ s with last_activity := now } : UserSession).motions mid <;>
    simp [h]

theorem generate_touches (ceiling maxS : ℕ) (now : Time)
    (fresh mid text sid : String) (st : Sessions) (s : UserSession)
    (outcome : RemoteOutcome)
    (hsid : sid ≠ "") (hfind : dictFind st sid = some s) (hkey : s.session_id = sid) :
    ∃ s', dictFind
        (generate_motion ceiling maxS now fresh mid text (some sid) outcome st).2 sid =
      some s' ∧ s'.last_activity = now := by
  obtain ⟨hla, hsi, _⟩ := rl_preserves ceiling now { s with last_activity := now }
  rcases hcheck : check_rate_limit ceiling now { s with last_activity := now }
    with ⟨admitted, s1⟩
  rw [hcheck] at hla hsi
  have hla1 : s1.last_activity = now := hla
  have hs1id : s1.session_id = sid := hsi.trans hkey
  simp only [generate_motion, goc_known now fresh st sid s hsid hfind, hcheck,
    hs1id, dictUpdate_dictUpdate]
  cases admitted with
  | false =>
    exact ⟨s1, by simpa using dictFind_dictUpdate_of_found st sid s s1 hfind, hla1⟩
  | true =>
    cases hro : generate_motion_from_remote outcome with
    | error f =>
      cases f with
      | http e =>
        exact ⟨s1, by simpa using dictFind_dictUpdate_of_found st sid s s1 hfind, hla1⟩
      | attrError =>
        exact ⟨s1, by simpa using dictFind_dictUpdate_of_found st sid s s1 hfind, hla1⟩
    | ok npz =>
      cases hcv : convert_npz_to_motion_data npz ("[AI] " ++ text.take 30) now with
      | error ce =>
        exact ⟨s1, by simpa [hcv] using dictFind_dictUpdate_of_found st sid s s1 hfind,
          hla1⟩
      | ok md =>
        refine ⟨{ s1 with motions := store_motion maxS mid md s1.motions }, ?_, hla1⟩
        simpa [hcv, hs1id] using dictFind_dictUpdate_of_found st sid s
          { s1 with motions := store_motion maxS mid md s1.motions } hfind

/-- C9 counterexample: deleting motion `"m"` from the session stored under
`"s"` (whose `last_activity` is instant 5) succeeds but leaves `last_activity`
at 5 — `delete_motion` reads no clock at all, so the deletion endpoint does
not refresh the session's last-activity timestamp as the claim asserts. -/
theorem delete_does_not_touch :
    delete_motion (some "s") "m" [("s", sampleSession)] =
      (MotionLookupResult.found (sampleRecord 1),
        [("s", { sampleSession with motions := [] })]) ∧
    ({ sampleSession with motions := [] }).last_activity = 5 ∧
    sampleSession.last_activity = 5 :=
  ⟨rfl, rfl, rfl⟩

/-- C9 amended: every operation that accesses a known session — get-or-create
(hence generate, which calls it first, for every wire outcome), motion
listing, and motion get — refreshes `last_activity` to the current instant in
the returned value and in the registry; the motion *delete* endpoint is the
exception: it leaves `last_activity` exactly as it was. -/
theorem touch_on_access (now : Time) (fresh mid text : String) (st : Sessions)
    (sid : String) (s : UserSession) (hsid : sid ≠ "")
    (hfind : dictFind st sid = some s) (hkey : s.session_id = sid) :
    ((get_or_create_session now fresh st (some sid)).1.last_activity = now ∧
      dictFind (get_or_create_session now fresh st (some sid)).2 sid =
        some { s with last_activity := now }) ∧
    dictFind (list_motions now (some sid) st).2 sid =
      some { s with last_activity := now } ∧
    dictFind (get_motion now (some sid) mid st).2 sid =
      some { s with last_activity := now } ∧
    (∀ (ceiling maxS : ℕ) (outcome : RemoteOutcome), ∃ s',
      dictFind
        (generate_motion ceiling maxS now fresh mid text (some sid) outcome st).2 sid =
        some s' ∧ s'.last_activity = now) ∧
    (∀ res st', delete_motion (some sid) mid st = (res, st') →
      ∃ s', dictFind st' sid = some s' ∧ s'.last_activity = s.last_activity) := by
  refine ⟨⟨?_, ?_⟩, ?_, ?_, ?_, ?_⟩
  · rw [goc_known now fresh st sid s hsid hfind]
  · rw [goc_known now fresh st sid s hsid hfind]
    exact dictFind_dictUpdate_of_found st sid s _ hfind
  · rw [list_motions_touches now sid st s hsid hfind]
    exact dictFind_dictUpdate_of_found st sid s _ hfind
  · rw [get_motion_touches now sid mid st s hsid hfind]
    exact dictFind_dictUpdate_of_found st sid s _ hfind
  · intro ceiling maxS outcome
    exact generate_touches ceiling maxS now fresh mid text sid st s outcome
      hsid hfind hkey
  · intro res st' hdel
    simp only [delete_motion, if_neg hsid, hfind] at hdel
    cases hm : dictFind s.motions mid with
    | none =>
      rw [hm] at hdel
      have hst' : st' = st := (congrArg Prod.snd hdel).symm
      rw [hst']
      exact ⟨s, hfind, rfl⟩
    | some record =>
      rw [hm] at hdel
      have hst' : st' = dictUpdate st sid
          { s with motions := s.motions.eraseP (fun p => p.1 = mid) } :=
        (congrArg Prod.snd hdel).symm
      rw [hst']
      exact ⟨_, dictFind_dictUpdate_of_found st sid s _ hfind, rfl⟩

/-- C9 witness: the amended theorem applied to a registry holding
`sampleSession` under `"s"`: the listing endpoint refreshes the stored
session's `last_activity` to the current instant 7. -/
theorem touch_on_access_witness :
    dictFind (list_motions 7 (some "s") [("s", sampleSession)]).2 "s" =
      some { sampleSession with last_activity := 7 } :=
  (touch_on_access 7 "u" "m" "txt" [("s", sampleSession)] "s" sampleSession
    (by decide) rfl rfl).2.1

/-! ## C10 — a failed generation still consumes a rate-limit slot -/

/-- C10 confirmed: once the rate limiter admits a generate request (within the
current window, count below the ceiling), the stored session's
`request_count` is one higher than before for *every* wire outcome — remote
errors and conversion failures included — with the window start unchanged;
the increment is never rolled back, and a failing exchange yields an error
response. -/
theorem rate_slot_consumed (ceiling maxS : ℕ) (now : Time)
    (fresh mid text sid : String) (st : Sessions) (s : UserSession)
    (outcome : RemoteOutcome)
    (hsid : sid ≠ "") (hfind : dictFind st sid = some s) (hkey : s.session_id = sid)
    (hwin : ¬ 60 < now - s.request_window_start)
    (hcount : s.request_count < ceiling) :
    (∃ s', dictFind
        (generate_motion ceiling maxS now fresh mid text (some sid) outcome st).2 sid =
        some s' ∧
      s'.request_count = s.request_count + 1 ∧
      s'.request_window_start = s.request_window_start) ∧
    (∀ f, generate_motion_from_remote outcome = Except.error f →
      ∃ status env,
        (generate_motion ceiling maxS now fresh mid text (some sid) outcome st).1 =
          GenerateResult.failure status env) := by
  constructor
  · cases hro : generate_motion_from_remote outcome with
    | error f =>
      cases f with
      | http e =>
        rw [generate_admitted_http_error ceiling maxS now fresh mid text sid st s
          outcome e hsid hfind hkey hwin hcount hro]
        exact ⟨_, dictFind_dictUpdate_of_found st sid s _ hfind, rfl, rfl⟩
      | attrError =>
        rw [generate_admitted_attr_error ceiling maxS now fresh mid text sid st s
          outcome hsid hfind hkey hwin hcount hro]
        exact ⟨_, dictFind_dictUpdate_of_found st sid s _ hfind, rfl, rfl⟩
    | ok npz =>
      cases hcv : convert_npz_to_motion_data npz ("[AI] " ++ text.take 30) now with
      | error ce =>
        rw [generate_admitted_conv_error ceiling maxS now fresh mid text sid st s
          outcome npz ce hsid hfind hkey hwin hcount hro hcv]
        exact ⟨_, dictFind_dictUpdate_of_found st sid s _ hfind, rfl, rfl⟩
      | ok md =>
        rw [generate_admitted_success ceiling maxS now fresh mid text sid st s
          outcome npz md hsid hfind hkey hwin hcount hro hcv]
        exact ⟨_, dictFind_dictUpdate_of_found st sid s _ hfind, rfl, rfl⟩
  · intro f hf
    cases f with
    | http e =>
      rw [generate_admitted_http_error ceiling maxS now fresh mid text sid st s
        outcome e hsid hfind hkey hwin hcount hf]
      exact ⟨_, _, rfl⟩
    | attrError =>
      rw [generate_admitted_attr_error ceiling maxS now fresh mid text sid st s
        outcome hsid hfind hkey hwin hcount hf]
      exact ⟨_, _, rfl⟩

/-- C10 witness: an admitted request on `sampleSession` (count 0, window start
0, instant 30) whose remote exchange times out leaves the stored count at 1. -/
theorem rate_slot_consumed_witness :
    ∃ s', dictFind (generate_motion 10 10 30 "u" "g1" "txt" (some "s")
        RemoteOutcome.timeout [("s", sampleSession)]).2 "s" = some s' ∧
      s'.request_count = sampleSession.request_count + 1 ∧
      s'.request_window_start = sampleSession.request_window_start :=
  (rate_slot_consumed 10 10 30 "u" "g1" "txt" "s" [("s", sampleSession)]
    sampleSession RemoteOutcome.timeout (by decide) rfl rfl
    (by norm_num [sampleSession]) (by decide)).1

/-! ## C6 — textual remote responses surface as structured errors -/

/-- C6 confirmed: a textual websocket message parsing as a JSON object is
surfaced as a 500 error carrying the object's `error` and `code` fields
(defaults `'Unknown error'` / `'SERVER_ERROR'` when absent), whose handler
envelope is `{success: false, error, code}`; a textual message that fails to
parse surfaces with code `INVALID_RESPONSE`; a binary message is returned
unchanged as the successful payload; and end-to-end, an admitted generate
request receiving such a textual error object returns exactly that error
envelope while the stored session keeps its motions unchanged (no motion
record is created). -/
theorem remote_error_classification :
    (∀ fields : List (String × String),
      generate_motion_from_remote
          (RemoteOutcome.response (WsResponse.text (some (Json.obj fields)))) =
        Except.error (RemoteFailure.http
          { status := 500
            detail := HTTPDetail.dict (jsonGet fields "error" "Unknown error")
              (jsonGet fields "code" "SERVER_ERROR") }) ∧
      http_exception_handler
          { status := 500
            detail := HTTPDetail.dict (jsonGet fields "error" "Unknown error")
              (jsonGet fields "code" "SERVER_ERROR") } =
        (500, { success := false, error := jsonGet fields "error" "Unknown error"
                code := jsonGet fields "code" "SERVER_ERROR" })) ∧
    (generate_motion_from_remote (RemoteOutcome.response (WsResponse.text none)) =
      Except.error (RemoteFailure.http
        { status := 500
          detail := HTTPDetail.dict "Invalid response from server" "INVALID_RESPONSE" })) ∧
    (∀ payload : Npz,
      generate_motion_from_remote
          (RemoteOutcome.response (WsResponse.binary payload)) =
        Except.ok payload) ∧
    (∀ (ceiling maxS : ℕ) (now : Time) (fresh mid text sid : String)
        (st : Sessions) (s : UserSession) (fields : List (String × String)),
      sid ≠ "" → dictFind st sid = some s → s.session_id = sid →
      ¬ 60 < now - s.request_window_start → s.request_count < ceiling →
      generate_motion ceiling maxS now fresh mid text (some sid)
          (RemoteOutcome.response (WsResponse.text (some (Json.obj fields)))) st =
        (GenerateResult.failure 500
          { success := false, error := jsonGet fields "error" "Unknown error"
            code := jsonGet fields "code" "SERVER_ERROR" },
          dictUpdate st sid
            { s with last_activity := now
                     request_count := s.request_count + 1 })) := by
  refine ⟨fun fields => ⟨rfl, rfl⟩, rfl, fun payload => rfl, ?_⟩
  intro ceiling maxS now fresh mid text sid st s fields hsid hfind hkey hwin hcount
  rw [generate_admitted_http_error ceiling maxS now fresh mid text sid st s
    (RemoteOutcome.response (WsResponse.text (some (Json.obj fields))))
    { status := 500
      detail := HTTPDetail.dict (jsonGet fields "error" "Unknown error")
        (jsonGet fields "code" "SERVER_ERROR") }
    hsid hfind hkey hwin hcount rfl]
  rfl

/-- C6 witness: the spec's end-to-end example — the remote message
`{"error": "bad prompt", "code": "INVALID_INPUT"}` on an admitted request
against `sampleSession` yields the envelope
`{success: false, error: "bad prompt", code: "INVALID_INPUT"}` with the
session's motions untouched. -/
theorem remote_error_classification_witness :
    generate_motion 10 10 30 "u" "g1" "txt" (some "s")
        (RemoteOutcome.response (WsResponse.text (some (Json.obj
          [("error", "bad prompt"), ("code", "INVALID_INPUT")])))) [("s", sampleSession)] =
      (GenerateResult.failure 500
        { success := false, error := "bad prompt", code := "INVALID_INPUT" },
        dictUpdate [("s", sampleSession)] "s"
          { sampleSession with
              last_activity := 30
              request_count := sampleSession.request_count + 1 }) :=
  remote_error_classification.2.2.2 10 10 30 "u" "g1" "txt" "s"
    [("s", sampleSession)] sampleSession
    [("error", "bad prompt"), ("code", "INVALID_INPUT")]
    (by decide) rfl rfl (by norm_num [sampleSession]) (by decide)

/-! ## C7 — transport failures map to distinct error kinds -/

/-- C7 confirmed: a timeout of the total response deadline maps to
`504/TIMEOUT`, a refused connection to `503/SERVER_UNAVAILABLE`, and any other
transport-level protocol violation to `502/WEBSOCKET_ERROR` (the spec's
`TransportError` kind, carrying the violation detail); each failure is an
error value, never a payload; and end-to-end an admitted generate request
whose exchange times out returns `{success: false, code: "TIMEOUT"}`. -/
theorem transport_failure_mapping :
    (generate_motion_from_remote RemoteOutcome.timeout =
      Except.error (RemoteFailure.http
        { status := 504
          detail := HTTPDetail.dict "Request timeout - generation took too long"
            "TIMEOUT" })) ∧
    (generate_motion_from_remote RemoteOutcome.connectionRefused =
      Except.error (RemoteFailure.http
        { status := 503
          detail := HTTPDetail.dict "Motion generation server unavailable"
            "SERVER_UNAVAILABLE" })) ∧
    (∀ d : String,
      generate_motion_from_remote (RemoteOutcome.wsException d) =
        Except.error (RemoteFailure.http
          { status := 502
            detail := HTTPDetail.dict ("WebSocket error: " ++ d) "WEBSOCKET_ERROR" })) ∧
    (∀ (ceiling maxS : ℕ) (now : Time) (fresh mid text sid : String)
        (st : Sessions) (s : UserSession),
      sid ≠ "" → dictFind st sid = some s → s.session_id = sid →
      ¬ 60 < now - s.request_window_start → s.request_count < ceiling →
      generate_motion ceiling maxS now fresh mid text (some sid)
          RemoteOutcome.timeout st =
        (GenerateResult.failure 504
          { success := false, error := "Request timeout - generation took too long"
            code := "TIMEOUT" },
          dictUpdate st sid
            { s with last_activity := now
                     request_count := s.request_count + 1 })) := by
  refine ⟨rfl, rfl, fun d => rfl, ?_⟩
  intro ceiling maxS now fresh mid text sid st s hsid hfind hkey hwin hcount
  rw [generate_admitted_http_error ceiling maxS now fresh mid text sid st s
    RemoteOutcome.timeout
    { status := 504
      detail := HTTPDetail.dict "Request timeout - generation took too long" "TIMEOUT" }
    hsid hfind hkey hwin hcount rfl]
  rfl

/-- C7 witness: an admitted request on `sampleSession` whose exchange exceeds
the total deadline returns the 504 `TIMEOUT` envelope. -/
theorem transport_failure_mapping_witness :
    generate_motion 10 10 30 "u" "g1" "txt" (some "s") RemoteOutcome.timeout
        [("s", sampleSession)] =
      (GenerateResult.failure 504
        { success := false, error := "Request timeout - generation took too long"
          code := "TIMEOUT" },
        dictUpdate [("s", sampleSession)] "s"
          { sampleSession with
              last_activity := 30
              request_count := sampleSession.request_count + 1 }) :=
  transport_failure_mapping.2.2.2 10 10 30 "u" "g1" "txt" "s"
    [("s", sampleSession)] sampleSession
    (by decide) rfl rfl (by norm_num [sampleSession]) (by decide)

end T2M
